import Mathlib

/-!
Verification of `jupyter_drives/handlers.py` (the `jupyter-drives` server
extension): path resolution (`url2localpath`), error responses
(`write_error`), the mount request handler (`MountJupyterDriveHandler.post`)
and startup registration (`setup_handlers`).

String-processing primitives of the Python standard library and of
`jupyter_server.utils` that the handlers call are embedded as structurally
recursive functions over `List Char`, so that every definition evaluates in
the kernel.  The host runs POSIX path semantics (`os.sep = '/'`).
-/

namespace JupyterDrives

/-! ## Character and string helpers -/

/-- Splits a character list at every occurrence of `sep`; mirrors Python
`str.split(sep)` for a one-character separator (the result is never empty,
and empty segments are kept). -/
def splitSep (sep : Char) : List Char → List (List Char)
  | [] => [[]]
  | c :: cs =>
    match splitSep sep cs with
    | [] => [[]]
    | w :: ws => if c = sep then [] :: w :: ws else (c :: w) :: ws

/-- `splitSep` never produces the empty list. -/
theorem splitSep_ne_nil (sep : Char) (l : List Char) : splitSep sep l ≠ [] := by
  cases l with
  | nil => simp [splitSep]
  | cons c cs =>
    simp only [splitSep]
    cases h : splitSep sep cs with
    | nil => simp
    | cons w ws =>
      by_cases hc : c = sep <;> simp [hc]

/-- Splits a string on the character `sep`; mirrors Python `str.split`. -/
def splitStr (sep : Char) (s : String) : List String :=
  (splitSep sep s.toList).map (fun w => (⟨w⟩ : String))

/-- Whether `p` is a prefix of `l`, as a boolean on character lists. -/
def isPrefList : List Char → List Char → Bool
  | [], _ => true
  | _ :: _, [] => false
  | a :: as, b :: bs => a = b && isPrefList as bs

/-- Python `str.startswith`. -/
def strStartsWith (s pre : String) : Bool := isPrefList pre.toList s.toList

/-- Python `str.endswith`. -/
def strEndsWith (s suf : String) : Bool :=
  isPrefList suf.toList.reverse s.toList.reverse

/-- Python `str.rstrip('/')`: drops every trailing `'/'`. -/
def rstripSlash (s : String) : String :=
  ⟨(s.toList.reverse.dropWhile (fun c => c = '/')).reverse⟩

/-- Python `str.strip('/')`: drops leading and trailing `'/'` characters. -/
def stripSlash (s : String) : String :=
  ⟨((s.toList.dropWhile (fun c => c = '/')).reverse.dropWhile
      (fun c => c = '/')).reverse⟩

/-- Joins strings with a separator; mirrors Python `sep.join(xs)`. -/
def joinWith (sep : String) : List String → String
  | [] => ""
  | [x] => x
  | x :: y :: xs => x ++ sep ++ joinWith sep (y :: xs)

/-- Whether `c` is an ASCII hexadecimal digit. -/
def isHexDigitChar (c : Char) : Bool :=
  (48 ≤ c.toNat && c.toNat ≤ 57) ||
  (97 ≤ c.toNat && c.toNat ≤ 102) ||
  (65 ≤ c.toNat && c.toNat ≤ 70)

/-- Numeric value of a hexadecimal digit. -/
def hexDigitVal (c : Char) : Nat :=
  if 48 ≤ c.toNat && c.toNat ≤ 57 then c.toNat - 48
  else if 97 ≤ c.toNat && c.toNat ≤ 102 then c.toNat - 87
  else if 65 ≤ c.toNat && c.toNat ≤ 70 then c.toNat - 55
  else 0

/-! ## urllib.parse.unquote

`urllib.parse.unquote` decodes `%hh` escapes and leaves malformed escapes
in place.  Each decoded byte is modelled as the character of its code point
(faithful on the ASCII range exercised by the handlers; the UTF-8
recombination of consecutive high bytes is not modelled). -/

/-- Percent-decoding on character lists. -/
def unquoteList : List Char → List Char
  | [] => []
  | '%' :: a :: b :: rest =>
    if isHexDigitChar a && isHexDigitChar b then
      Char.ofNat (16 * hexDigitVal a + hexDigitVal b) :: unquoteList rest
    else '%' :: unquoteList (a :: b :: rest)
  | c :: rest => c :: unquoteList rest

/-- Python `urllib.parse.unquote` on strings. -/
def unquote (s : String) : String := ⟨unquoteList s.toList⟩

/-! ## posixpath -/

/-- `posixpath.join(a, b)` for exactly two components: an absolute second
component discards the first; otherwise the components are joined with a
single `'/'` unless the first is empty or already ends in `'/'`. -/
def os_path_join (a b : String) : String :=
  if strStartsWith b "/" then b
  else if a = "" ∨ strEndsWith a "/" then a ++ b
  else a ++ "/" ++ b

/-- `posixpath.join` folded over a list of further components, as in
`os.path.join(*pieces)`. -/
def os_path_join_list (a : String) (ps : List String) : String :=
  ps.foldl os_path_join a

/-- `jupyter_server.utils.url2path`: splits the URL on `'/'`,
percent-decodes every piece, and joins the pieces with `os.path.join`. -/
def url2path (url : String) : String :=
  match (splitStr '/' url).map unquote with
  | [] => ""
  | p :: ps => os_path_join_list p ps

/-- Number of leading `'/'` characters. -/
def leadingSlashes (l : List Char) : Nat :=
  (l.takeWhile (fun c => c = '/')).length

/-- `posixpath.normpath` treats one or three-or-more leading slashes as one
initial slash and exactly two as two. -/
def initialSlashesOf (l : List Char) : Nat :=
  if leadingSlashes l = 0 then 0
  else if leadingSlashes l = 2 then 2 else 1

/-- The component loop of `posixpath.normpath`: drops empty and `"."`
components, lets `".."` cancel a previous real component, and keeps
leading `".."` components only for relative paths. -/
def normpathComps (ini : Nat) (comps : List String) : List String :=
  comps.foldl
    (fun acc comp =>
      if comp = "" ∨ comp = "." then acc
      else if comp ≠ ".." ∨ (ini = 0 ∧ acc = []) ∨
          (acc ≠ [] ∧ acc.getLast? = some "..") then acc ++ [comp]
      else if acc ≠ [] then acc.dropLast else acc)
    []

/-- `posixpath.normpath`: purely lexical normalization of `"."`, `".."`
and repeated separators. -/
def posix_normpath (path : String) : String :=
  if path = "" then "." else
  let l := path.toList
  let ini := initialSlashesOf l
  let joined := joinWith "/" (normpathComps ini (splitStr '/' path))
  let res := (⟨List.replicate ini '/'⟩ : String) ++ joined
  if res = "" then "." else res

/-- A local path lies within `root` when, after lexical normalization, it
is the root itself or a descendant of it. -/
def withinRoot (root p : String) : Bool :=
  let r := posix_normpath root
  let n := posix_normpath p
  n = r || strStartsWith n (r ++ "/")

/-- `posixpath.expanduser` with the `HOME` environment value passed in
explicitly.  Only the bare-`~` form expands; a `~user` form needs the
passwd database, and CPython returns the path unchanged when the user is
unknown, which is how the absent database is modelled here. -/
def os_expanduser (home path : String) : String :=
  if strStartsWith path "~" then
    let rest : String := ⟨path.toList.drop 1⟩
    if rest = "" ∨ strStartsWith rest "/" then
      let r := rstripSlash home ++ rest
      if r = "" then "/" else r
    else path
  else path

/-! ## Exceptions and the contents-manager model -/

/-- Python exception values observable at the handler boundary. -/
inductive PyError where
  | keyError (key : String)
  | typeError (msg : String)
  | httpError (status : Nat) (reason : String) (error_code : Option String)
  | notImplementedError
  | exc (msg : String)
deriving DecidableEq

/-- A Jupyter contents manager, reduced to the trait `url2localpath`
reads: its `root_dir`. -/
structure ContentsManager where
  root_dir : String
deriving DecidableEq

/-- The contents manager seen by the handler: either a plain manager, or a
`hybridcontents.HybridContentsManager` composed of sub-managers keyed by
path prefixes (the hybrid manager also carries its own `root_dir` trait,
used only when the `hybridcontents` package is not importable). -/
inductive CM where
  | plain (cm : ContentsManager)
  | hybrid (root_dir : String) (managers : List (String × ContentsManager))
deriving DecidableEq

/-- The return value of `url2localpath`: the local path alone, or paired
with the owning contents manager when `with_contents_manager` is set. -/
inductive PathResult where
  | pathOnly (local_path : String)
  | withCM (local_path : String) (cm : ContentsManager)
deriving DecidableEq

/-- The local path held by a `PathResult`. -/
def PathResult.localPath : PathResult → String
  | .pathOnly p => p
  | .withCM p _ => p

instance : DecidableEq (Except PyError PathResult) := fun x y =>
  match x, y with
  | .ok a, .ok b =>
    if h : a = b then isTrue (by rw [h]) else isFalse (fun he => by cases he; exact h rfl)
  | .error a, .error b =>
    if h : a = b then isTrue (by rw [h]) else isFalse (fun he => by cases he; exact h rfl)
  | .ok _, .error _ => isFalse (fun he => by cases he)
  | .error _, .ok _ => isFalse (fun he => by cases he)

/-- Does the key `pre` of a sub-manager match the logical path? -/
def keyMatches (pre path : String) : Bool :=
  pre ≠ "" && (path = pre || strStartsWith path (pre ++ "/"))

/-- Drops the matched key from the front of the path, together with the
separator that follows it. -/
def stripKey (pre path : String) : String :=
  match path.toList.drop pre.toList.length with
  | '/' :: r => ⟨r⟩
  | r => ⟨r⟩

/-- Modelled from the spec: `hybridcontents.hybridmanager._resolve_path`
(external package, not under `src/`).  Following §4.2 step 2: find the
backing root whose prefix matches the logical path and strip the matched
prefix; if no prefixed root matches, fall back to the default root (keyed
by the empty string); with no default the resolution fails (HTTP 404). -/
def resolve_path (path : String) (managers : List (String × ContentsManager)) :
    Option (String × ContentsManager × String) :=
  match managers.find? (fun pm => keyMatches pm.1 path) with
  | some (pre, m) => some (pre, m, stripKey pre path)
  | none =>
    match managers.find? (fun pm => decide (pm.1 = "")) with
    | some (_, m) => some ("", m, path)
    | none => none

/-! ## JupyterDrivesAPIHandler.url2localpath

The pure computation performed by one call of the method, with the ambient
state (`HOME`, importability of `hybridcontents`, `self.contents_manager`)
passed explicitly.  The `functools.lru_cache` wrapping is modelled
separately below. -/

/-- `JupyterDrivesAPIHandler.url2localpath`, translated line by line from
the source: optionally re-resolve the manager and path through the hybrid
manager, then `os.path.join(os.path.expanduser(cm.root_dir), url2path(path))`. -/
def url2localpath (home : String) (hybridAvailable : Bool) (cm : CM)
    (path : String) (with_contents_manager : Bool) : Except PyError PathResult :=
  match cm with
  | .plain m =>
    let local_path := os_path_join (os_expanduser home m.root_dir) (url2path path)
    .ok (if with_contents_manager then .withCM local_path m else .pathOnly local_path)
  | .hybrid rd mgrs =>
    if hybridAvailable then
      match resolve_path path mgrs with
      | some (_, m2, p2) =>
        let local_path := os_path_join (os_expanduser home m2.root_dir) (url2path p2)
        .ok (if with_contents_manager then .withCM local_path m2 else .pathOnly local_path)
      | none => .error (.httpError 404 "Couldnt resolve the path" none)
    else
      let local_path := os_path_join (os_expanduser home rd) (url2path path)
      .ok (if with_contents_manager then .withCM local_path (⟨rd⟩ : ContentsManager)
           else .pathOnly local_path)

/-- PathResolver.resolve written from the words of the spec §4.2, step by
step: start from the configured root (step 1); when the content-access
layer is composite, find and strip the matching backing root, else keep
the default (step 2); expand user-home shorthand in the resolved root
(step 3); join the possibly stripped logical path onto it with the
canonical decoding rules (step 4); return the local path and manager
(step 5).  Compared against `url2localpath` in the theorem for C7. -/
def resolve_spec (home : String) (hybridAvailable : Bool) (cm : CM)
    (logical_path : String) (with_contents_manager : Bool) :
    Except PyError PathResult :=
  let backing : Except PyError (ContentsManager × String) :=
    match cm with
    | .plain m => .ok (m, logical_path)
    | .hybrid rd mgrs =>
      if hybridAvailable then
        match resolve_path logical_path mgrs with
        | some (_, m, rest) => .ok (m, rest)
        | none => .error (.httpError 404 "Couldnt resolve the path" none)
      else .ok (⟨rd⟩, logical_path)
  match backing with
  | .error e => .error e
  | .ok (m, rest) =>
    let root := os_expanduser home m.root_dir
    let local_path := os_path_join root (url2path rest)
    .ok (if with_contents_manager then .withCM local_path m else .pathOnly local_path)

/-! ## JSON values and json.dumps -/

/-- JSON values, as produced by `json.loads` and consumed by `json.dumps`
(numbers restricted to integers; none of the handlers builds a float). -/
inductive JSON where
  | null
  | bool (b : Bool)
  | num (n : Int)
  | str (s : String)
  | arr (elems : List JSON)
  | obj (fields : List (String × JSON))

/-- Lowercase hexadecimal digit. -/
def hexDigitChar (n : Nat) : Char :=
  if n < 10 then Char.ofNat (48 + n) else Char.ofNat (87 + n)

/-- Four lowercase hexadecimal digits, as in a `\uXXXX` escape. -/
def hex4 (n : Nat) : String :=
  ⟨[hexDigitChar (n / 4096 % 16), hexDigitChar (n / 256 % 16),
    hexDigitChar (n / 16 % 16), hexDigitChar (n % 16)]⟩

/-- The escaping `json.dumps` applies to one character of a string, with
the default `ensure_ascii=True`: the two mandatory escapes, the five
short control escapes, `\uXXXX` for the remaining control and non-ASCII
characters, and surrogate pairs beyond the basic plane. -/
def jsonEscapeChar (c : Char) : String :=
  if c = '"' then "\\\""
  else if c = '\\' then "\\\\"
  else if c = '\n' then "\\n"
  else if c = '\r' then "\\r"
  else if c = '\t' then "\\t"
  else if c.toNat = 8 then "\\b"
  else if c.toNat = 12 then "\\f"
  else if 32 ≤ c.toNat ∧ c.toNat ≤ 126 then ⟨[c]⟩
  else if c.toNat < 65536 then "\\u" ++ hex4 c.toNat
  else
    "\\u" ++ hex4 (55296 + (c.toNat - 65536) / 1024) ++
    "\\u" ++ hex4 (56320 + (c.toNat - 65536) % 1024)

/-- Escapes every character of a JSON string body. -/
def jsonEscape (s : String) : String :=
  s.toList.foldl (fun acc c => acc ++ jsonEscapeChar c) ""

mutual

/-- `json.dumps` with its default separators `", "` and `": "` and
`ensure_ascii=True`. -/
def json_dumps : JSON → String
  | .null => "null"
  | .bool true => "true"
  | .bool false => "false"
  | .num n => toString n
  | .str s => "\"" ++ jsonEscape s ++ "\""
  | .arr xs => "[" ++ joinWith ", " (jsonDumpsList xs) ++ "]"
  | .obj fs => "\x7b" ++ joinWith ", " (jsonDumpsFields fs) ++ "\x7d"

/-- Serializes array elements. -/
def jsonDumpsList : List JSON → List String
  | [] => []
  | x :: xs => json_dumps x :: jsonDumpsList xs

/-- Serializes object members as `"key": value`. -/
def jsonDumpsFields : List (String × JSON) → List String
  | [] => []
  | kv :: rest =>
    ("\"" ++ jsonEscape kv.1 ++ "\": " ++ json_dumps kv.2) :: jsonDumpsFields rest

end

/-- Python subscript `value[key]` on a JSON value: `KeyError` when the key
is missing from a dict, `TypeError` when the value is not a dict (as for
`None["k"]` after an absent request body). -/
def JSON.getItem (j : JSON) (key : String) : Except PyError JSON :=
  match j with
  | .obj fields =>
    match fields.find? (fun f => decide (f.1 = key)) with
    | some f => .ok f.2
    | none => .error (.keyError key)
  | _ => .error (.typeError "object is not subscriptable")

/-- Python truthiness of a JSON value, as used by `if mount_drive:`. -/
def JSON.truthy : JSON → Bool
  | .null => false
  | .bool b => b
  | .num n => n ≠ 0
  | .str s => s ≠ ""
  | .arr xs => !xs.isEmpty
  | .obj fs => !fs.isEmpty

/-- Looks a key up in a serialized reply dictionary. -/
def lookupField (fields : List (String × JSON)) (key : String) : Option JSON :=
  (fields.find? (fun f => decide (f.1 = key))).map (fun f => f.2)

/-! ## JupyterDrivesAPIHandler.write_error -/

/-- The exception information handed to `write_error` (`exc_info[1]` plus,
for a non-`HTTPError`, the text `traceback.format_exception` renders for
the full exception info). -/
inductive ExcInfo where
  | http (reason : String) (error_code : Option String)
  | other (formattedTraceback : String)
deriving DecidableEq

/-- The reply dictionary built by `write_error`: it starts as
`{"error": "Unhandled error"}`; a `tornado.web.HTTPError` overwrites the
message with its `reason` and contributes its `error_code` attribute when
present; any other exception overwrites the message with the full
formatted traceback. -/
def write_error_reply (excInfo : Option ExcInfo) : List (String × JSON) :=
  match excInfo with
  | none => [("error", .str "Unhandled error")]
  | some (.http reason none) => [("error", .str reason)]
  | some (.http reason (some code)) =>
    [("error", .str reason), ("error_code", .str code)]
  | some (.other tb) => [("error", .str tb)]

/-- The response `write_error` finishes with: the `application/json`
content type and the serialized reply dictionary. -/
structure ErrorResponse where
  contentType : String
  body : String
deriving DecidableEq

/-- `JupyterDrivesAPIHandler.write_error`. -/
def write_error (excInfo : Option ExcInfo) : ErrorResponse :=
  { contentType := "application/json"
    body := json_dumps (.obj (write_error_reply excInfo)) }

/-- The HTTP status Tornado reports for an exception that escapes a
handler: an `HTTPError` carries its own status; any other exception is an
internal server error, status 500. -/
def statusOf : PyError → Nat
  | .httpError status _ _ => status
  | _ => 500

/-! ## MountJupyterDriveHandler.post -/

/-- The manager operations the handler awaits, supplied by the configured
`JupyterDrivesManager` backend (repository code outside `src/`, kept
abstract): each returns a `MountResult` as a JSON value or raises. -/
structure ManagerOps where
  mount_drive : JSON → String → Except PyError JSON
  unmount_drive : JSON → String → Except PyError JSON

/-- The call `json.dump(result)` in the source: `json.dump` requires a
second positional argument `fp` (the file object), so the call raises
`TypeError` before anything is serialized or written. -/
def json_dump_call (_result : JSON) : Except PyError String :=
  .error (.typeError "dump missing 1 required positional argument fp")

/-- How one request ends: the handler finished a body, or an exception
escaped to Tornado. -/
inductive Outcome where
  | finished (body : String)
  | raised (e : PyError)
deriving DecidableEq

/-- `MountJupyterDriveHandler.post`, translated statement by statement:
read the JSON body, subscript `drive_name` and `mount_drive`, resolve the
local path, dispatch on the truthiness of `mount_drive`, and finish with
`json.dump(result)`.  An absent body makes `get_json_body` return `None`. -/
def MountJupyterDriveHandler_post (mgr : ManagerOps) (home : String)
    (hybridAvailable : Bool) (cm : CM) (body? : Option JSON) (path : String) :
    Outcome :=
  let body := match body? with | none => JSON.null | some b => b
  match body.getItem "drive_name" with
  | .error e => .raised e
  | .ok drive_name =>
    match body.getItem "mount_drive" with
    | .error e => .raised e
    | .ok mount_drive =>
      match url2localpath home hybridAvailable cm path false with
      | .error e => .raised e
      | .ok pr =>
        let local_path := pr.localPath
        match (if mount_drive.truthy then mgr.mount_drive drive_name local_path
               else mgr.unmount_drive drive_name local_path) with
        | .error e => .raised e
        | .ok result =>
          match json_dump_call result with
          | .error e => .raised e
          | .ok s => .finished s

/-! ## setup_handlers -/

/-- The namespace prefix of the extension. -/
def NAMESPACE : String := "jupyter-drives"

/-- `jupyter_server.utils.url_path_join` for two pieces: strips inner
slashes, joins non-empty pieces with one `'/'`, and keeps the initial and
final slash in place. -/
def url_path_join (a b : String) : String :=
  let initial := strStartsWith a "/"
  let final := strEndsWith b "/"
  let pieces := ([stripSlash a, stripSlash b].filter (fun s => s ≠ ""))
  let r := (if initial then "/" else "") ++ joinWith "/" pieces ++
    (if final then "/" else "")
  if r = "//" then "/" else r

/-- Modelled from the spec: the active configuration value read by
`DrivesConfig(config=config).provider` (`jupyter_drives.base`, not under
`src/`) — a provider identifier naming the backend, with the rest of the
configuration passed opaquely to the backend factory. -/
structure Config where
  provider : String
deriving DecidableEq

/-- A constructed `JupyterDrivesManager` backend instance (opaque). -/
structure Manager where
  id : String
deriving DecidableEq

/-- Modelled from the spec: one value of the `MANAGERS` registry
(`jupyter_drives.base`, not under `src/`): an entry point whose `load()`
yields the manager class, here the factory that constructs the backend
from the configuration (and may raise). -/
structure EntryPoint where
  name : String
  factory : Config → Except PyError Manager

/-- The Tornado application state `setup_handlers` touches: its
`base_url` setting and the handler table `add_handlers` extends. -/
structure WebApp where
  base_url : String
  handlers : List (String × String)
deriving DecidableEq

/-- The `default_handlers` table at module level. -/
def default_handlers : List (String × String) :=
  [("drives", "ListJupyterDrivesHandler"),
   ("mount-drive", "MountJupyterDriveHandler")]

/-- Severity of an emitted log record. -/
inductive LogLevel where
  | error
  | info
  | debug
deriving DecidableEq

/-- `setup_handlers`, translated from the source: read the configured
provider, look it up in `MANAGERS`; with no entry, log an error naming the
provider and raise `NotImplementedError`; otherwise construct the manager
from the factory, re-raising any construction failure after logging; only
then register the two handlers under the namespace prefix.  Returns the
emitted log records (repr interpolations omitted) and either the raised
exception or the extended application. -/
def setup_handlers (MANAGERS : List (String × EntryPoint)) (web_app : WebApp)
    (config : Config) : List (LogLevel × String) × Except PyError WebApp :=
  let base_url := url_path_join web_app.base_url NAMESPACE
  let provider := config.provider
  match MANAGERS.find? (fun pm => decide (pm.1 = provider)) with
  | none =>
    ([(.error, "JupyterDrives Manager: No manager defined for provider " ++ provider)],
     .error .notImplementedError)
  | some (_, entry_point) =>
    let infoLog := (LogLevel.info, "JupyterDrives Manager Class " ++ entry_point.name)
    match entry_point.factory config with
    | .error err =>
      ([infoLog, (.error, "JupyterDrives Manager Exception")], .error err)
    | .ok _manager =>
      ([infoLog, (.debug, "Jupyter-Drives Handlers")],
       .ok { web_app with
              handlers := web_app.handlers ++
                default_handlers.map (fun ph => (url_path_join base_url ph.1, ph.2)) })

/-! ## functools.lru_cache

`url2localpath` is decorated with `functools.lru_cache()`: per handler
instance, results are memoized keyed by the call arguments
`(path, with_contents_manager)`, in a least-recently-used cache of the
default capacity 128 that is never invalidated. -/

/-- A cache key: the argument pair of one `url2localpath` call. -/
abbrev CacheKey := String × Bool

/-- A cached outcome of the wrapped computation. -/
abbrev CacheVal := Except PyError PathResult

/-- The cache contents, most recently used first. -/
abbrev LRU := List (CacheKey × CacheVal)

/-- The default `maxsize` of `functools.lru_cache()`. -/
def lru_maxsize : Nat := 128

/-- Cache lookup. -/
def lruLookup (k : CacheKey) (c : LRU) : Option CacheVal :=
  (c.find? (fun e => decide (e.1 = k))).map (fun e => e.2)

/-- Removes the entry of a key (used to move a hit to the front). -/
def lruRemove (k : CacheKey) (c : LRU) : LRU :=
  c.filter (fun e => decide (e.1 ≠ k))

/-- One call through `functools.lru_cache`: a hit returns the stored value
and moves the entry to the most-recently-used position without re-running
the computation; a miss runs the computation, stores the result in front,
and evicts the least recently used entry past the capacity. -/
def lruCall (f : CacheKey → CacheVal) (c : LRU) (k : CacheKey) :
    CacheVal × LRU :=
  match lruLookup k c with
  | some v => (v, (k, v) :: lruRemove k c)
  | none => (f k, List.take lru_maxsize ((k, f k) :: c))

/-- One call of the memoized `url2localpath` on an instance whose current
contents-manager state is `cm`. -/
def url2localpath_cached (home : String) (hybridAvailable : Bool) (cm : CM)
    (c : LRU) (k : CacheKey) : CacheVal × LRU :=
  lruCall (fun q => url2localpath home hybridAvailable cm q.1 q.2) c k

/-- A sequence of memoized calls under a fixed root configuration,
returning the answers in order and the final cache. -/
def url2localpath_runCached (home : String) (hybridAvailable : Bool) (cm : CM)
    (c : LRU) : List CacheKey → List CacheVal × LRU
  | [] => ([], c)
  | k :: ks =>
    let r := url2localpath_cached home hybridAvailable cm c k
    let rest := url2localpath_runCached home hybridAvailable cm r.2 ks
    (r.1 :: rest.1, rest.2)

/-- Every cache entry agrees with the pure computation `f`. -/
def Consistent (f : CacheKey → CacheVal) (c : LRU) : Prop :=
  ∀ e ∈ c, e.2 = f e.1

/-! ## Cache lemmas -/

/-- A successful lookup comes from an entry of the cache with that key. -/
theorem lruLookup_mem (k : CacheKey) (c : LRU) (v : CacheVal)
    (h : lruLookup k c = some v) : ∃ e ∈ c, e.1 = k ∧ e.2 = v := by
  unfold lruLookup at h
  cases hf : c.find? (fun e => decide (e.1 = k)) with
  | none => rw [hf] at h; simp at h
  | some e =>
    rw [hf] at h
    simp only [Option.map_some', Option.some.injEq] at h
    have hp := List.find?_some hf
    simp only [decide_eq_true_eq] at hp
    exact ⟨e, List.mem_of_find?_eq_some hf, hp, h⟩

/-- On a cache consistent with `f`, a memoized call answers exactly `f`. -/
theorem lruCall_fst_of_consistent (f : CacheKey → CacheVal) (c : LRU) (k : CacheKey)
    (h : Consistent f c) : (lruCall f c k).1 = f k := by
  unfold lruCall
  cases hv : lruLookup k c with
  | none => rfl
  | some v =>
    obtain ⟨e, hmem, hk, hval⟩ := lruLookup_mem k c v hv
    simpa [← hval, ← hk] using h e hmem

/-- A memoized call keeps the cache consistent with `f`: the hit path only
reorders entries, and the miss path inserts the freshly computed value and
drops entries past the capacity. -/
theorem lruCall_preserves_consistent (f : CacheKey → CacheVal) (c : LRU) (k : CacheKey)
    (h : Consistent f c) : Consistent f (lruCall f c k).2 := by
  unfold lruCall
  cases hv : lruLookup k c with
  | some v =>
    intro e he
    rcases List.mem_cons.mp he with rfl | hmem
    · obtain ⟨e0, hmem0, hk0, hval0⟩ := lruLookup_mem k c v hv
      simpa [← hval0, ← hk0] using h e0 hmem0
    · exact h e (List.mem_filter.mp hmem).1
  | none =>
    intro e he
    rcases List.mem_cons.mp (List.take_subset _ _ he) with rfl | hmem
    · rfl
    · exact h e hmem

/-- Along any call sequence over a cache consistent with the fixed pure
resolution, the memoized method answers the pure values pointwise. -/
theorem runCached_fst_of_consistent (home : String) (hyb : Bool) (cm : CM)
    (ks : List CacheKey) : ∀ (c : LRU),
    Consistent (fun q => url2localpath home hyb cm q.1 q.2) c →
    (url2localpath_runCached home hyb cm c ks).1
      = ks.map (fun q => url2localpath home hyb cm q.1 q.2) := by
  induction ks with
  | nil => intro c _; rfl
  | cons k ks ih =>
    intro c h
    simp only [url2localpath_runCached, url2localpath_cached, List.map_cons]
    rw [lruCall_fst_of_consistent _ c k h, ih _ (lruCall_preserves_consistent _ c k h)]

/-! ## Concrete request and registry values used by witnesses and
counterexamples -/

/-- A well-formed mount request body. -/
def mount_body_ex : JSON :=
  .obj [("drive_name", .str "bucket-a"), ("mount_drive", .bool true)]

/-- A backend whose mount and unmount operations succeed. -/
def mgr_ex : ManagerOps :=
  { mount_drive := fun _ _ => .ok (.obj [("drive_name", .str "bucket-a"),
      ("local_path", .str "/drives"), ("status", .str "mounted")]),
    unmount_drive := fun _ _ => .ok (.obj [("status", .str "unmounted")]) }

/-- A formatted traceback of an internal fault. -/
def tb_ex : String :=
  "Traceback (most recent call last): ZeroDivisionError: division by zero"

/-- A registry entry for a provider named local-test. -/
def c5_entry : EntryPoint := ⟨"LocalTestManager", fun _ => .ok ⟨"local-test-manager"⟩⟩

/-- A registry entry whose manager construction raises. -/
def c6_entry : EntryPoint := ⟨"S3Manager", fun _ => .error (.exc "bad credentials")⟩

/-- 128 argument pairs distinct from `("p", false)`, enough to fill the
cache and push out its oldest entry. -/
def c10_evict_keys : List CacheKey :=
  (List.range 128).map (fun i => ((⟨[Char.ofNat (200 + i)]⟩ : String), false))

/-- The contents manager before reconfiguration. -/
def c10_cmA : CM := .plain ⟨"/a"⟩

/-- The contents manager after its `root_dir` changed. -/
def c10_cmB : CM := .plain ⟨"/b"⟩

/-- First memoized call on a fresh instance, under the old root. -/
def c10_first : CacheVal × LRU := url2localpath_cached "/h" true c10_cmA [] ("p", false)

/-- 128 intervening memoized calls on other paths, under the new root. -/
def c10_mid : List CacheVal × LRU :=
  url2localpath_runCached "/h" true c10_cmB c10_first.2 c10_evict_keys

/-- A later memoized call with the first arguments again. -/
def c10_last : CacheVal × LRU := url2localpath_cached "/h" true c10_cmB c10_mid.2 ("p", false)

/-! ## The claims -/

/-- C1: the claim says `url2localpath` either rejects a traversal path or
returns a local path inside the configured root.  The code does neither:
for the logical path `".."` against the root `/drives` it returns — with
no rejection — the local path `/drives/..`, which normalizes to `/`, the
parent of the root, so the resolved path escapes the configured root. -/
theorem url2localpath_traversal_escapes_root :
    url2localpath "/home/user" true (CM.plain ⟨"/drives"⟩) ".." false
        = .ok (.pathOnly "/drives/..") ∧
    posix_normpath "/drives/.." = "/" ∧
    withinRoot "/drives" "/drives/.." = false :=
  ⟨rfl, by decide, by decide⟩

/-- C2 counterexample: by default (there is no debug gate anywhere in the
handler), the error payload for a non-`HTTPError` fault carries the full
formatted traceback as its `error` field, so the raw internal fault
description is included in the response body. -/
theorem write_error_leaks_traceback_counterexample :
    write_error (some (.other tb_ex)) =
      { contentType := "application/json",
        body := "\x7b\"error\": \"" ++ tb_ex ++ "\"\x7d" } ∧
    lookupField (write_error_reply (some (.other tb_ex))) "error" = some (.str tb_ex) ∧
    decide (tb_ex = "Unhandled error") = false :=
  ⟨rfl, rfl, by decide⟩

/-- C2 (amended): every unhandled failure is translated into a structured
JSON payload whose fields are exactly `error` (a string, always present)
and optionally `error_code`; but for an exception that is not a
transport-level `HTTPError` the `error` field is the full formatted
traceback, unconditionally — the handler has no debug mode, so the
internal fault description is always included. -/
theorem write_error_structured_traceback_unconditional :
    (∀ excInfo, ∃ s, lookupField (write_error_reply excInfo) "error" = some (.str s)) ∧
    (∀ excInfo, (write_error_reply excInfo).all
        (fun f => f.1 == "error" || f.1 == "error_code") = true) ∧
    (∀ tb, write_error_reply (some (.other tb)) = [("error", .str tb)] ∧
      write_error (some (.other tb)) =
        { contentType := "application/json",
          body := json_dumps (.obj [("error", .str tb)]) }) := by
  refine ⟨?_, ?_, ?_⟩
  · intro excInfo
    match excInfo with
    | none => exact ⟨"Unhandled error", rfl⟩
    | some (.http r none) => exact ⟨r, rfl⟩
    | some (.http r (some c)) => exact ⟨r, rfl⟩
    | some (.other tb) => exact ⟨tb, rfl⟩
  · intro excInfo
    match excInfo with
    | none => rfl
    | some (.http r none) => rfl
    | some (.http r (some c)) => rfl
    | some (.other tb) => rfl
  · intro tb
    exact ⟨rfl, rfl⟩

/-- C2 witness: the amended statement evaluated on a concrete fault. -/
theorem write_error_structured_traceback_unconditional_witness :
    write_error_reply (some (.other "boom")) = [("error", JSON.str "boom")] :=
  (write_error_structured_traceback_unconditional.2.2 "boom").1

/-- C3: on a well-formed mount request the handler resolves the path and
dispatches correctly, but it then finishes with `json.dump(result)` —
`json.dump` lacks its mandatory file argument, so the call raises
`TypeError` and the handler never finishes a 200 JSON response. -/
theorem mount_post_json_dump_typeerror :
    MountJupyterDriveHandler_post mgr_ex "/home/user" true (.plain ⟨"/drives"⟩)
        (some mount_body_ex) ""
      = .raised (.typeError "dump missing 1 required positional argument fp") :=
  rfl

/-- C4 counterexample: a request body that merely omits `drive_name`
makes the handler raise an uncaught `KeyError`, which the framework
reports with status 500 — a server fault, not a 4xx client error. -/
theorem mount_post_missing_field_counterexample :
    MountJupyterDriveHandler_post mgr_ex "/home/user" true (.plain ⟨"/drives"⟩)
        (some (.obj [("mount_drive", .bool true)])) ""
      = .raised (.keyError "drive_name") ∧
    statusOf (.keyError "drive_name") = 500 ∧
    decide (400 ≤ statusOf (.keyError "drive_name") ∧
      statusOf (.keyError "drive_name") < 500) = false :=
  ⟨rfl, rfl, by decide⟩

/-- C4 (amended): a mount request whose JSON body is missing `drive_name`
raises an uncaught `KeyError` from the bare subscript, and the framework
turns an uncaught non-HTTP exception into a 500 internal server error —
the missing field is reported as a server fault, not a client error. -/
theorem mount_post_missing_field_is_500 :
    ∀ (mgr : ManagerOps) (home : String) (hyb : Bool) (cm : CM) (path : String)
      (fields : List (String × JSON)),
    fields.find? (fun f => decide (f.1 = "drive_name")) = none →
    MountJupyterDriveHandler_post mgr home hyb cm (some (.obj fields)) path
      = .raised (.keyError "drive_name") ∧
    statusOf (.keyError "drive_name") = 500 := by
  intro mgr home hyb cm path fields h
  refine ⟨?_, rfl⟩
  simp [MountJupyterDriveHandler_post, JSON.getItem, h]

/-- C4 witness: the amended statement evaluated on a concrete body. -/
theorem mount_post_missing_field_is_500_witness :
    MountJupyterDriveHandler_post mgr_ex "/home/user" true (.plain ⟨"/drives"⟩)
        (some (.obj [("mount_drive", .bool true)])) ""
      = .raised (.keyError "drive_name") ∧
    statusOf (.keyError "drive_name") = 500 :=
  mount_post_missing_field_is_500 mgr_ex "/home/user" true (.plain ⟨"/drives"⟩) ""
    [("mount_drive", .bool true)] rfl

/-- C5: when the configured provider has no entry in the registry,
`setup_handlers` logs an error naming the provider and raises
`NotImplementedError` before any handler is built, so startup fails
fatally and no request handlers are installed. -/
theorem setup_handlers_unknown_provider :
    ∀ (MANAGERS : List (String × EntryPoint)) (web_app : WebApp) (config : Config),
    MANAGERS.find? (fun pm => decide (pm.1 = config.provider)) = none →
    setup_handlers MANAGERS web_app config =
      ([(.error, "JupyterDrives Manager: No manager defined for provider " ++ config.provider)],
       .error .notImplementedError) := by
  intro M w c h
  simp [setup_handlers, h]

/-- C5 witness: the spec scenario — only `local-test` registered, `s3`
configured — evaluated concretely. -/
theorem setup_handlers_unknown_provider_witness :
    setup_handlers [("local-test", c5_entry)] ⟨"/", []⟩ ⟨"s3"⟩ =
      ([(.error, "JupyterDrives Manager: No manager defined for provider s3")],
       .error .notImplementedError) :=
  setup_handlers_unknown_provider [("local-test", c5_entry)] ⟨"/", []⟩ ⟨"s3"⟩ rfl

/-- C6: when the resolved factory raises while constructing the manager,
`setup_handlers` logs and re-raises that same exception, and the handler
registration is never reached. -/
theorem setup_handlers_factory_failure_propagates :
    ∀ (MANAGERS : List (String × EntryPoint)) (web_app : WebApp) (config : Config)
      (name : String) (ep : EntryPoint) (e : PyError),
    MANAGERS.find? (fun pm => decide (pm.1 = config.provider)) = some (name, ep) →
    ep.factory config = .error e →
    setup_handlers MANAGERS web_app config =
      ([(.info, "JupyterDrives Manager Class " ++ ep.name),
        (.error, "JupyterDrives Manager Exception")], .error e) := by
  intro M w c n ep e h1 h2
  simp [setup_handlers, h1, h2]

/-- C6 witness: a failing factory evaluated concretely. -/
theorem setup_handlers_factory_failure_witness :
    setup_handlers [("s3", c6_entry)] ⟨"/", []⟩ ⟨"s3"⟩ =
      ([(.info, "JupyterDrives Manager Class S3Manager"),
        (.error, "JupyterDrives Manager Exception")], .error (.exc "bad credentials")) :=
  setup_handlers_factory_failure_propagates [("s3", c6_entry)] ⟨"/", []⟩ ⟨"s3"⟩
    "s3" c6_entry (.exc "bad credentials") rfl rfl

/-- C7: for every logical path, `url2localpath` computes exactly what the
spec prescribes: the hybrid sub-manager resolution with prefix stripping
when the contents manager is composite, then
`os.path.join(expanduser(cm.root_dir), url2path(path))` for the selected
manager `cm`. -/
theorem url2localpath_eq_resolve_spec :
    ∀ (home : String) (hyb : Bool) (cm : CM) (path : String) (wcm : Bool),
    url2localpath home hyb cm path wcm = resolve_spec home hyb cm path wcm := by
  intro home hyb cm path wcm
  cases cm with
  | plain m => rfl
  | hybrid rd mgrs =>
    cases hyb with
    | false => rfl
    | true =>
      cases hr : resolve_path path mgrs with
      | none => simp [url2localpath, resolve_spec, hr]
      | some t => simp [url2localpath, resolve_spec, hr]

/-- C7 witness: the equivalence evaluated on a composite manager with a
matching sub-manager key. -/
theorem url2localpath_eq_resolve_spec_witness :
    url2localpath "/home/user" true (.hybrid "" [("d", ⟨"/mnt"⟩)]) "d/x" true
      = resolve_spec "/home/user" true (.hybrid "" [("d", ⟨"/mnt"⟩)]) "d/x" true :=
  url2localpath_eq_resolve_spec "/home/user" true (.hybrid "" [("d", ⟨"/mnt"⟩)]) "d/x" true

/-- C8 counterexample: for the empty logical path against the root
`/drives` (already expanded), the code returns `/drives/` — the root with
a trailing separator appended by `os.path.join` — which is not the string
the expanded root itself. -/
theorem url2localpath_empty_path_counterexample :
    url2localpath "/home/user" true (.plain ⟨"/drives"⟩) "" false
      = .ok (.pathOnly "/drives/") ∧
    os_expanduser "/home/user" "/drives" = "/drives" ∧
    decide (("/drives/" : String) = "/drives") = false :=
  ⟨rfl, rfl, by decide⟩

/-- C8 (amended): for the empty logical path, `url2localpath` returns the
expanded root directory with a trailing separator appended (when the
expanded root is nonempty and does not already end in one): the root
itself as a directory, but not string-identical to the expanded root. -/
theorem url2localpath_empty_path :
    ∀ (home : String) (hyb : Bool) (root : String),
    os_expanduser home root ≠ "" →
    strEndsWith (os_expanduser home root) "/" = false →
    url2localpath home hyb (.plain ⟨root⟩) "" false
      = .ok (.pathOnly (os_expanduser home root ++ "/")) := by
  intro home hyb root h1 h2
  simp only [url2localpath]
  rw [show url2path "" = "" from rfl]
  simp [os_path_join, h1, h2, strStartsWith, isPrefList]

/-- C8 witness: the amended statement evaluated at a concrete root. -/
theorem url2localpath_empty_path_witness :
    url2localpath "/home/user" true (.plain ⟨"/drives"⟩) "" false
      = .ok (.pathOnly "/drives/") :=
  url2localpath_empty_path "/home/user" true "/drives" (by decide) (by decide)

/-- C9: under a fixed root configuration, the memoized `url2localpath` is
behavior-preserving: starting from the empty cache, any sequence of calls
answers exactly what the unmemoized pure computation returns at each
argument pair. -/
theorem url2localpath_memo_eq_pure :
    ∀ (home : String) (hyb : Bool) (cm : CM) (ks : List CacheKey),
    (url2localpath_runCached home hyb cm [] ks).1
      = ks.map (fun q => url2localpath home hyb cm q.1 q.2) :=
  fun home hyb cm ks =>
    runCached_fst_of_consistent home hyb cm ks [] (fun e he => absurd he (List.not_mem_nil e))

/-- C9 witness: a concrete call sequence with a repeated key. -/
theorem url2localpath_memo_eq_pure_witness :
    (url2localpath_runCached "/h" true (.plain ⟨"/drives"⟩) []
        [("a", false), ("a", false), ("b", true)]).1
      = [("a", false), ("a", false), ("b", true)].map
          (fun q => url2localpath "/h" true (.plain ⟨"/drives"⟩) q.1 q.2) :=
  url2localpath_memo_eq_pure "/h" true (.plain ⟨"/drives"⟩)
    [("a", false), ("a", false), ("b", true)]

set_option maxRecDepth 8000 in
set_option maxHeartbeats 4000000 in
/-- C10 counterexample: the first memoized call under root `/a` returns
`/a/p`; after 128 memoized calls on other paths the entry is evicted from
the 128-entry LRU cache, and a later call with the same arguments — on
the same instance — recomputes under the changed root `/b` and returns
`/b/p`, not the first value. -/
theorem url2localpath_cache_eviction_counterexample :
    c10_first.1 = Except.ok (.pathOnly "/a/p") ∧
    c10_last.1 = Except.ok (.pathOnly "/b/p") ∧
    decide (c10_last.1 = c10_first.1) = false :=
  ⟨by decide, by decide, by decide⟩

/-- C10 (amended): as long as the entry is still in the cache, a later
call with the same arguments returns the first value: a cache hit never
re-reads the contents manager, so the stored result — computed under the
old `root_dir` — is returned even after the root configuration changed.
(The lru_cache is never invalidated; only eviction past the capacity of
128 entries causes recomputation, as the counterexample shows.) -/
theorem url2localpath_cache_hit_is_stale :
    ∀ (home : String) (hybA hybB : Bool) (cmA cmB : CM) (k : CacheKey) (c : LRU),
    lruLookup k c = some (url2localpath home hybA cmA k.1 k.2) →
    (url2localpath_cached home hybB cmB c k).1 = url2localpath home hybA cmA k.1 k.2 := by
  intro home hybA hybB cmA cmB k c h
  simp [url2localpath_cached, lruCall, h]

/-- C10 witness: a cached entry computed under root `/a` is returned by a
call made while the manager root is `/b`. -/
theorem url2localpath_cache_hit_is_stale_witness :
    (url2localpath_cached "/h" true (.plain ⟨"/b"⟩)
        [(("p", false), url2localpath "/h" true (.plain ⟨"/a"⟩) "p" false)] ("p", false)).1
      = url2localpath "/h" true (.plain ⟨"/a"⟩) "p" false :=
  url2localpath_cache_hit_is_stale "/h" true true (.plain ⟨"/a"⟩) (.plain ⟨"/b"⟩)
    ("p", false) _ rfl

end JupyterDrives
